import Mathlib

set_option maxRecDepth 8000

/-!
Shallow embedding of `24088662_music_streaming_db.py`, a one-shot generator of
a synthetic music-streaming dataset (Artists, Albums, Songs, Users, Plays)
followed by a per-user play-count aggregation.

Randomness model: the script seeds three pseudo-random sources once at start
(`random.seed`, `np.random.seed`, `Faker.seed`) and then consumes them purely
sequentially.  We model each seeded source as an infinite stream (a function
from draw position to raw value) bundled in `Gen`, with a cursor triple `St`
threaded through the whole pipeline in program order.  Every theorem below is
universally quantified over the streams, so it holds for every seed.

Numeric draws: `random.randint(a,b)` becomes `a + k % (b + 1 - a)`;
`random.random()` becomes a rational in `[0,1)` with three decimal digits;
`round(random.uniform(0,hi),2)` becomes a rational in `[0,hi]` with two
decimal digits.  Faker outputs (`fake.name()`, `fake.country()`,
`fake.word()`, `fake.email()`) are successive values of the seeded string
stream.  `pandas.DataFrame.sample` draws from the numpy stream.
-/

/-- The three seeded random sources of the script: the `random` module stream,
the numpy stream (used by `albums_df.sample`) and the Faker string stream. -/
structure Gen where
  rand : Nat → Nat
  np : Nat → Nat
  fak : Nat → String

/-- Cursor positions into the three streams; generation threads this state
sequentially, exactly in the program order of the script. -/
structure St where
  r : Nat
  n : Nat
  f : Nat
deriving Repr, DecidableEq

/-- Initial cursor state, right after the three `seed` calls. -/
def st0 : St := ⟨0, 0, 0⟩

/-- One raw draw from the `random`-module stream. -/
def drawRand (g : Gen) (s : St) : Nat × St := (g.rand s.r, ⟨s.r + 1, s.n, s.f⟩)

/-- One raw draw from the numpy stream (used by `DataFrame.sample`). -/
def drawNp (g : Gen) (s : St) : Nat × St := (g.np s.n, ⟨s.r, s.n + 1, s.f⟩)

/-- One string drawn from the seeded Faker source. -/
def drawFake (g : Gen) (s : St) : String × St := (g.fak s.f, ⟨s.r, s.n, s.f + 1⟩)

/-- `random.randint(a, b)`: uniform integer in the inclusive range `[a, b]`. -/
def randint (a b : Nat) (g : Gen) (s : St) : Nat × St :=
  let k := drawRand g s
  (a + k.1 % (b + 1 - a), k.2)

/-- `random.choice(l)`: uniform element of the list `l` (the script only ever
calls it on nonempty lists, where the fallback `d` is unreachable). -/
def choice {α : Type} (l : List α) (d : α) (g : Gen) (s : St) : α × St :=
  let k := drawRand g s
  (l.getD (k.1 % l.length) d, k.2)

/-- `random.random()`: uniform real in `[0,1)`, modelled as a rational with
three decimal digits. -/
def randomFloat (g : Gen) (s : St) : ℚ × St :=
  let k := drawRand g s
  (((k.1 % 1000 : Nat) : ℚ) / 1000, k.2)

/-- `round(random.uniform(0, hi), 2)`: a rational in `[0, hi]` with two
decimal digits. -/
def round2uniform (hi : Nat) (g : Gen) (s : St) : ℚ × St :=
  let k := drawRand g s
  (((k.1 % (100 * hi + 1) : Nat) : ℚ) / 100, k.2)

/-- `random_year(start, end)` from the script: `random.randint(start, end)`. -/
def random_year (a b : Nat) (g : Gen) (s : St) : Nat × St := randint a b g s

/-- `random_duration_seconds()`: `random.randint(120, 420)`. -/
def random_duration_seconds (g : Gen) (s : St) : Nat × St := randint 120 420 g s

/-- `random_popularity()`: `round(random.uniform(0, 100), 2)`. -/
def random_popularity (g : Gen) (s : St) : ℚ × St := round2uniform 100 g s

/-- `random_listen_score()`: `round(random.uniform(0, 10), 2)`. -/
def random_listen_score (g : Gen) (s : St) : ℚ × St := round2uniform 10 g s

/-- The fixed genre list `GENRES` of the script. -/
def GENRES : List String :=
  ["Pop", "Rock", "Hip-Hop", "Electronic", "Jazz", "Classical", "Country",
   "R&B", "Reggae", "Metal", "Folk", "Indie"]

/-- `USER_TIERS`, ordinal Free < Basic < Premium < Family. -/
def USER_TIERS : List String := ["Free", "Basic", "Premium", "Family"]

/-- `AUDIO_QUALITIES`, ordinal Low < Medium < High. -/
def AUDIO_QUALITIES : List String := ["Low", "Medium", "High"]

/-- `NUM_ARTISTS = 120`. -/
def NUM_ARTISTS : Nat := 120

/-- `NUM_ALBUMS = 400`. -/
def NUM_ALBUMS : Nat := 400

/-- `NUM_SONGS = 1200`. -/
def NUM_SONGS : Nat := 1200

/-- `NUM_USERS = 1100` (the source comment says at least 1000 is required). -/
def NUM_USERS : Nat := 1100

/-- `NUM_PLAYS = 3500`. -/
def NUM_PLAYS : Nat := 3500

/-- `random.choices(USER_TIERS, weights=[0.5, 0.3, 0.15, 0.05])[0]`:
cumulative-weight categorical pick driven by one uniform draw. -/
def choicesTier (g : Gen) (s : St) : String × St :=
  let q := randomFloat g s
  (if q.1 < 1/2 then "Free"
   else if q.1 < 4/5 then "Basic"
   else if q.1 < 19/20 then "Premium"
   else "Family", q.2)

/-- Row of the Artists table. -/
structure Artist where
  artist_id : Nat
  artist_name : String
  country : String
deriving Repr, DecidableEq

/-- Row of the Albums table. -/
structure Album where
  album_id : Nat
  album_name : String
  artist_id : Nat
  genre : String
  release_year : Nat
deriving Repr, DecidableEq

/-- Row of the Songs table. -/
structure Song where
  song_id : Nat
  title : String
  album_id : Nat
  duration_seconds : Nat
  popularity_index : ℚ
deriving Repr, DecidableEq

/-- Row of the Users table.  `email` is `none` until the quality-injection
pass adds the column; `total_listens` starts as the placeholder 0 and is
overwritten by the aggregation step with an integer count
(`fillna(0).astype(int)`). -/
structure User where
  user_id : Nat
  user_name : String
  gender : String
  user_tier : String
  registration_year : Nat
  favorite_genre : String
  total_listens : Int
  email : Option String
deriving Repr, DecidableEq

/-- Row of the Plays table (composite key `user_id, song_id, session_no`). -/
structure Play where
  user_id : Nat
  song_id : Nat
  session_no : Nat
  play_year : Nat
  listen_score : ℚ
  audio_quality : String
deriving Repr, DecidableEq

/-- Fallback rows for `List.getD`; never reached on the script's nonempty
tables. -/
def dfltAlbum : Album := ⟨0, "", 0, "", 0⟩

/-- Fallback User row for `List.getD`. -/
def dfltUser : User := ⟨0, "", "", "", 0, "", 0, none⟩

/-- Artists loop: for `aid` in `range(1, NUM_ARTISTS + 1)` append a row with
`fake.name()` and `fake.country()`.  First argument counts remaining rows,
second is the next id. -/
def genArtists (g : Gen) : Nat → Nat → St → List Artist × St
  | 0, _, s => ([], s)
  | n + 1, aid, s =>
    let nm := drawFake g s
    let co := drawFake g nm.2
    let rest := genArtists g n (aid + 1) co.2
    (⟨aid, nm.1, co.1⟩ :: rest.1, rest.2)

/-- Albums loop: uniform `artist_id` from the generated artist ids, a name
built from `fake.word().capitalize()`, a suffix choice and `randint(1,99)`,
a uniform genre, and `random_year(1980, 2024)`. -/
def genAlbums (g : Gen) (artistIds : List Nat) : Nat → Nat → St → List Album × St
  | 0, _, s => ([], s)
  | n + 1, alid, s =>
    let ar := choice artistIds 0 g s
    let w := drawFake g ar.2
    let suf := choice ["Vol", "Collection", "Series"] "Vol" g w.2
    let num := randint 1 99 g suf.2
    let ge := choice GENRES "Pop" g num.2
    let ry := random_year 1980 2024 g ge.2
    let rest := genAlbums g artistIds n (alid + 1) ry.2
    (⟨alid, w.1.capitalize ++ " " ++ suf.1 ++ " " ++ toString num.1, ar.1, ge.1, ry.1⟩
       :: rest.1, rest.2)

/-- Songs loop: `albums_df.sample(1)` (one numpy draw picking an album row),
`random_duration_seconds()`, a title from `fake.word()` and a word choice,
and `random_popularity()`. -/
def genSongs (g : Gen) (albums : List Album) : Nat → Nat → St → List Song × St
  | 0, _, s => ([], s)
  | n + 1, sid, s =>
    let samp := drawNp g s
    let albumRow := albums.getD (samp.1 % albums.length) dfltAlbum
    let dur := random_duration_seconds g samp.2
    let w := drawFake g dur.2
    let word2 := choice ["Love", "Night", "Dream", "Light", "Sound"] "Love" g w.2
    let pop := random_popularity g word2.2
    let rest := genSongs g albums n (sid + 1) pop.2
    (⟨sid, w.1.capitalize ++ " " ++ word2.1, albumRow.album_id, dur.1, pop.1⟩
       :: rest.1, rest.2)

/-- Users loop: `fake.name()`, a uniform gender, a weighted tier, a uniform
registration year in 2010..2024, a uniform favorite genre, and the
`total_listens = 0` placeholder.  The email column does not exist yet. -/
def genUsers (g : Gen) : Nat → Nat → St → List User × St
  | 0, _, s => ([], s)
  | n + 1, uid, s =>
    let nm := drawFake g s
    let ge := choice ["Male", "Female", "Non-binary", "Prefer not to say"] "Male" g nm.2
    let ti := choicesTier g ge.2
    let ry := random_year 2010 2024 g ti.2
    let fg := choice GENRES "Pop" g ry.2
    let rest := genUsers g n (uid + 1) fg.2
    (⟨uid, nm.1, ge.1, ti.1, ry.1, fg.1, 0, none⟩ :: rest.1, rest.2)

/-- Email column pass, row by row:
`fake.email() if random.random() > 0.05 else None`.  The lambda receives the
user name but never reads it: the email, when present, is an independent
Faker draw. -/
def injectEmail (g : Gen) : List User → St → List User × St
  | [], s => ([], s)
  | u :: rest, s =>
    let q := randomFloat g s
    if q.1 > 1/20 then
      let em := drawFake g q.2
      let tl := injectEmail g rest em.2
      ({u with email := some em.1} :: tl.1, tl.2)
    else
      let tl := injectEmail g rest q.2
      ({u with email := none} :: tl.1, tl.2)

/-- One iteration of the duplication loop: draw indices `i = randrange(len)`
and `j = randrange(len)`, copy `user_name` from row `j` to row `i`, then with
probability 1/2 also copy `email`. -/
def dupOnce (g : Gen) (us : List User) (s : St) : List User × St :=
  let ki := drawRand g s
  let kj := drawRand g ki.2
  let i := ki.1 % us.length
  let j := kj.1 % us.length
  let us1 := us.set i {us.getD i dfltUser with user_name := (us.getD j dfltUser).user_name}
  let q := randomFloat g kj.2
  if q.1 < 1/2 then
    (us1.set i {us1.getD i dfltUser with email := (us1.getD j dfltUser).email}, q.2)
  else (us1, q.2)

/-- The duplication loop, `int(len(users_df) * 0.02)` iterations. -/
def dupLoop (g : Gen) : Nat → List User → St → List User × St
  | 0, us, s => (us, s)
  | n + 1, us, s =>
    let step := dupOnce g us s
    dupLoop g n step.1 step.2

/-- `int(len * 0.02)`: number of duplication iterations. -/
def dupCount (len : Nat) : Nat := 2 * len / 100

/-- Plays loop body: uniform `user_id` and `song_id` from the existing id
lists, `session_no` from the per-(user,song) running counter `ctr` (the
`session_counter` dict), then year, listen score and audio quality. -/
def genPlaysAux (g : Gen) (userIds songIds : List Nat) :
    Nat → ((Nat × Nat) → Nat) → St → List Play × St
  | 0, _, s => ([], s)
  | n + 1, ctr, s =>
    let ku := choice userIds 0 g s
    let ks := choice songIds 0 g ku.2
    let c := ctr (ku.1, ks.1) + 1
    let py := random_year 2018 2024 g ks.2
    let lsc := random_listen_score g py.2
    let aq := choice AUDIO_QUALITIES "Low" g lsc.2
    let rest := genPlaysAux g userIds songIds n
      (fun p => if p = (ku.1, ks.1) then c else ctr p) aq.2
    (⟨ku.1, ks.1, c, py.1, lsc.1, aq.1⟩ :: rest.1, rest.2)

/-- The full plays loop: the `session_counter` dict starts empty
(`get(key, 0)` makes every first occurrence read 0). -/
def genPlays (g : Gen) (userIds songIds : List Nat) (p : Nat) (s : St) :
    List Play × St :=
  genPlaysAux g userIds songIds p (fun _ => 0) s

/-- `plays_df.groupby("user_id").size()`: one row per distinct user id
occurring in Plays, carrying its occurrence count.  (pandas sorts the group
keys; the left merge below is insensitive to row order, so we keep first
occurrence order.) -/
def user_listen_counts (plays : List Play) : List (Nat × Nat) :=
  ((plays.map (fun p => p.user_id)).dedup).map
    (fun u => (u, (plays.map (fun p => p.user_id)).count u))

/-- Left-merge lookup of a user id in the grouped counts. -/
def lookupCount (counts : List (Nat × Nat)) (uid : Nat) : Option Nat :=
  (counts.find? (fun c => c.1 == uid)).map (fun c => c.2)

/-- `users_df.merge(user_listen_counts, how="left")` followed by
`fillna(0).astype(int)` and the assignment to `total_listens`: each user row
gets the looked-up count, 0 when absent, as an integer. -/
def mergeAggregate (us : List User) (counts : List (Nat × Nat)) : List User :=
  us.map (fun u =>
    {u with total_listens := Int.ofNat ((lookupCount counts u.user_id).getD 0)})

/-- The five in-memory tables of the script. -/
structure DB where
  artists : List Artist
  albums : List Album
  songs : List Song
  users : List User
  plays : List Play
deriving Repr, DecidableEq

/-- The entity-count configuration surface (`NUM_*` constants). -/
structure Config where
  numArtists : Nat
  numAlbums : Nat
  numSongs : Nat
  numUsers : Nat
  numPlays : Nat
deriving Repr, DecidableEq

/-- The configuration hard-coded in the script. -/
def defaultConfig : Config := ⟨NUM_ARTISTS, NUM_ALBUMS, NUM_SONGS, NUM_USERS, NUM_PLAYS⟩

/-- Generation stage: Artists, then Albums, then Songs, then Users, in
program order, all from the cursors at `st0`. -/
def genStage (cfg : Config) (g : Gen) : DB × St :=
  let arts := genArtists g cfg.numArtists 1 st0
  let albs := genAlbums g (arts.1.map (fun a => a.artist_id)) cfg.numAlbums 1 arts.2
  let sngs := genSongs g albs.1 cfg.numSongs 1 albs.2
  let usrs := genUsers g cfg.numUsers 1 sngs.2
  (⟨arts.1, albs.1, sngs.1, usrs.1, []⟩, usrs.2)

/-- Data-quality stage: the email pass then the duplication loop, touching
only the `users` table. -/
def qualityStage (g : Gen) (d : DB) (s : St) : DB × St :=
  let r1 := injectEmail g d.users s
  let r2 := dupLoop g (dupCount r1.1.length) r1.1 r1.2
  ({d with users := r2.1}, r2.2)

/-- Plays stage: the fact-table loop, reading the current user and song id
lists and touching only the `plays` table. -/
def playsStage (cfg : Config) (g : Gen) (d : DB) (s : St) : DB × St :=
  let pls := genPlays g (d.users.map (fun u => u.user_id))
    (d.songs.map (fun x => x.song_id)) cfg.numPlays s
  ({d with plays := pls.1}, pls.2)

/-- Aggregation stage: recompute `total_listens` from Plays and merge it into
the `users` table; nothing else changes. -/
def aggStage (d : DB) : DB :=
  {d with users := mergeAggregate d.users (user_listen_counts d.plays)}

/-- The tables and stream cursors right after the quality-injection stage. -/
def qualDB (cfg : Config) (g : Gen) : DB × St :=
  qualityStage g (genStage cfg g).1 (genStage cfg g).2

/-- The tables and stream cursors right after the plays stage. -/
def playsDB (cfg : Config) (g : Gen) : DB × St :=
  playsStage cfg g (qualDB cfg g).1 (qualDB cfg g).2

/-- The whole in-memory pipeline of the script, in program order (generation,
quality injection, plays, aggregation); the result is exactly what the
persistence layer receives. -/
def runPipeline (cfg : Config) (g : Gen) : DB :=
  aggStage (playsDB cfg g).1

/-- The pipeline at the script's hard-coded configuration. -/
def finalDB (g : Gen) : DB := runPipeline defaultConfig g

/-- Oracle streams with constant raw draws; used to exhibit one concrete run
of the generators. -/
def gZero : Gen := ⟨fun _ => 100, fun _ => 0, fun _ => "user100@example.org"⟩

/-- A concrete user row (used to run the email pass on a known input). -/
def mkTestUser (nm : String) : User := ⟨1, nm, "Female", "Free", 2010, "Pop", 0, none⟩

/-- The email pattern determined by the streams and a row count alone: the
same draw sequence as the email pass, with no access to any user field. -/
def emailsFrom (g : Gen) : Nat → St → List (Option String) × St
  | 0, s => ([], s)
  | n + 1, s =>
    let q := randomFloat g s
    if q.1 > 1/20 then
      let em := drawFake g q.2
      let tl := emailsFrom g n em.2
      (some em.1 :: tl.1, tl.2)
    else
      let tl := emailsFrom g n q.2
      (none :: tl.1, tl.2)

/-! ## Basic helper lemmas -/

/-- An in-bounds `getD` is a member of the list. -/
theorem getD_mem {α : Type} {l : List α} {i : Nat} {d : α} (h : i < l.length) :
    l.getD i d ∈ l := by
  induction l generalizing i with
  | nil => simp at h
  | cons a t ih =>
    cases i with
    | zero => simp
    | succ i =>
      simp only [List.getD_cons_succ]
      exact List.mem_cons_of_mem a (ih (by simpa using h))

/-- `choice` on a nonempty list returns one of its elements. -/
theorem choice_mem {α : Type} {l : List α} {d : α} (g : Gen) (s : St)
    (h : 0 < l.length) : (choice l d g s).1 ∈ l :=
  getD_mem (Nat.mod_lt _ h)

/-- Writing back the element already at a position leaves a list unchanged. -/
theorem set_getD_self {α : Type} (l : List α) (i : Nat) (d : α) :
    l.set i (l.getD i d) = l := by
  induction l generalizing i with
  | nil => rfl
  | cons a t ih =>
    cases i with
    | zero => rfl
    | succ i => simpa using ih i

/-- `getD` commutes with `map`. -/
theorem getD_map {α β : Type} (f : α → β) (l : List α) (i : Nat) (d : α) :
    (l.map f).getD i (f d) = f (l.getD i d) := by
  induction l generalizing i with
  | nil => rfl
  | cons a t ih =>
    cases i with
    | zero => rfl
    | succ i => simp [ih i]

/-! ## Shape of the generated tables: counts and surrogate keys -/

/-- The artists loop produces ids `aid, aid+1, ...`, one per remaining row. -/
theorem genArtists_ids (g : Gen) (n aid : Nat) (s : St) :
    (genArtists g n aid s).1.map (fun a => a.artist_id) = List.range' aid n := by
  induction n generalizing aid s with
  | zero => rfl
  | succ n ih => simp [genArtists, ih, List.range'_succ]

/-- The albums loop produces ids `alid, alid+1, ...`. -/
theorem genAlbums_ids (g : Gen) (artistIds : List Nat) (n alid : Nat) (s : St) :
    (genAlbums g artistIds n alid s).1.map (fun a => a.album_id) = List.range' alid n := by
  induction n generalizing alid s with
  | zero => rfl
  | succ n ih => simp [genAlbums, ih, List.range'_succ]

/-- The songs loop produces ids `sid, sid+1, ...`. -/
theorem genSongs_ids (g : Gen) (albums : List Album) (n sid : Nat) (s : St) :
    (genSongs g albums n sid s).1.map (fun x => x.song_id) = List.range' sid n := by
  induction n generalizing sid s with
  | zero => rfl
  | succ n ih => simp [genSongs, ih, List.range'_succ]

/-- The users loop produces ids `uid, uid+1, ...`. -/
theorem genUsers_ids (g : Gen) (n uid : Nat) (s : St) :
    (genUsers g n uid s).1.map (fun u => u.user_id) = List.range' uid n := by
  induction n generalizing uid s with
  | zero => rfl
  | succ n ih => simp [genUsers, ih, List.range'_succ]

/-- The artists loop produces exactly `n` rows. -/
theorem genArtists_length (g : Gen) (n aid : Nat) (s : St) :
    (genArtists g n aid s).1.length = n := by
  have h := congrArg List.length (genArtists_ids g n aid s)
  simpa using h

/-- The albums loop produces exactly `n` rows. -/
theorem genAlbums_length (g : Gen) (artistIds : List Nat) (n alid : Nat) (s : St) :
    (genAlbums g artistIds n alid s).1.length = n := by
  have h := congrArg List.length (genAlbums_ids g artistIds n alid s)
  simpa using h

/-- The songs loop produces exactly `n` rows. -/
theorem genSongs_length (g : Gen) (albums : List Album) (n sid : Nat) (s : St) :
    (genSongs g albums n sid s).1.length = n := by
  have h := congrArg List.length (genSongs_ids g albums n sid s)
  simpa using h

/-- The users loop produces exactly `n` rows. -/
theorem genUsers_length (g : Gen) (n uid : Nat) (s : St) :
    (genUsers g n uid s).1.length = n := by
  have h := congrArg List.length (genUsers_ids g n uid s)
  simpa using h

/-- The plays loop produces exactly `n` rows. -/
theorem genPlaysAux_length (g : Gen) (userIds songIds : List Nat) (n : Nat)
    (ctr : (Nat × Nat) → Nat) (s : St) :
    (genPlaysAux g userIds songIds n ctr s).1.length = n := by
  induction n generalizing ctr s with
  | zero => rfl
  | succ n ih => simp [genPlaysAux, ih]

/-! ## Referential integrity of the generated rows -/

/-- Every album generated from a nonempty artist-id list references one of
those ids. -/
theorem genAlbums_artist_mem (g : Gen) (artistIds : List Nat) (n alid : Nat) (s : St)
    (h : 0 < artistIds.length) :
    ∀ a ∈ (genAlbums g artistIds n alid s).1, a.artist_id ∈ artistIds := by
  induction n generalizing alid s with
  | zero => intro a ha; simp [genAlbums] at ha
  | succ n ih =>
    intro a ha
    simp only [genAlbums, List.mem_cons] at ha
    rcases ha with rfl | ha
    · exact choice_mem g s h
    · exact ih _ _ a ha

/-- Every song generated from a nonempty album table references one of its
album ids. -/
theorem genSongs_album_mem (g : Gen) (albums : List Album) (n sid : Nat) (s : St)
    (h : 0 < albums.length) :
    ∀ x ∈ (genSongs g albums n sid s).1,
      x.album_id ∈ albums.map (fun a => a.album_id) := by
  induction n generalizing sid s with
  | zero => intro x hx; simp [genSongs] at hx
  | succ n ih =>
    intro x hx
    simp only [genSongs, List.mem_cons] at hx
    rcases hx with rfl | hx
    · exact List.mem_map_of_mem _ (getD_mem (Nat.mod_lt _ h))
    · exact ih _ _ x hx

/-- Every play generated from nonempty user-id and song-id lists references
ids from those lists. -/
theorem genPlaysAux_refs (g : Gen) (userIds songIds : List Nat) (n : Nat)
    (ctr : (Nat × Nat) → Nat) (s : St) (hu : 0 < userIds.length)
    (hs : 0 < songIds.length) :
    ∀ p ∈ (genPlaysAux g userIds songIds n ctr s).1,
      p.user_id ∈ userIds ∧ p.song_id ∈ songIds := by
  induction n generalizing ctr s with
  | zero => intro p hp; simp [genPlaysAux] at hp
  | succ n ih =>
    intro p hp
    simp only [genPlaysAux, List.mem_cons] at hp
    rcases hp with rfl | hp
    · exact ⟨choice_mem g _ hu, choice_mem g _ hs⟩
    · exact ih _ _ p hp

/-! ## Session numbers -/

/-- A play whose own pair is the filtered pair survives the filter. -/
theorem filter_pair_cons_eq (u v uid sid c py : Nat) (lsc : ℚ) (aq : String)
    (tl : List Play) (h : ((u, v) : Nat × Nat) = (uid, sid)) :
    ((⟨u, v, c, py, lsc, aq⟩ :: tl).filter
        (fun p => decide ((p.user_id, p.song_id) = (uid, sid))))
    = (⟨u, v, c, py, lsc, aq⟩ : Play) ::
        tl.filter (fun p => decide ((p.user_id, p.song_id) = (uid, sid))) := by
  rw [List.filter_cons, if_pos (decide_eq_true (show ((u, v) : Nat × Nat) = (uid, sid) from h))]

/-- A play of a different pair is dropped by the filter. -/
theorem filter_pair_cons_ne (u v uid sid c py : Nat) (lsc : ℚ) (aq : String)
    (tl : List Play) (h : ((u, v) : Nat × Nat) ≠ (uid, sid)) :
    ((⟨u, v, c, py, lsc, aq⟩ :: tl).filter
        (fun p => decide ((p.user_id, p.song_id) = (uid, sid))))
    = tl.filter (fun p => decide ((p.user_id, p.song_id) = (uid, sid))) := by
  rw [List.filter_cons, if_neg (fun hc => h (of_decide_eq_true hc))]

/-- Core invariant of the `session_counter` dict: starting from counter state
`ctr`, the plays generated for a fixed (user, song) pair carry, in generation
order, the consecutive session numbers `ctr (uid, sid) + 1, ctr (uid, sid) + 2, ...`. -/
theorem genPlaysAux_sessions (g : Gen) (userIds songIds : List Nat) (uid sid : Nat)
    (n : Nat) (ctr : (Nat × Nat) → Nat) (s : St) :
    ((genPlaysAux g userIds songIds n ctr s).1.filter
        (fun p => decide ((p.user_id, p.song_id) = (uid, sid)))).map
      (fun p => p.session_no)
    = List.range' (ctr (uid, sid) + 1)
        ((genPlaysAux g userIds songIds n ctr s).1.filter
          (fun p => decide ((p.user_id, p.song_id) = (uid, sid)))).length := by
  induction n generalizing ctr s with
  | zero => simp [genPlaysAux]
  | succ n ih =>
    simp only [genPlaysAux]
    by_cases hp :
        ((((choice userIds 0 g s).1,
          (choice songIds 0 g (choice userIds 0 g s).2).1)) : Nat × Nat) = (uid, sid)
    · rw [filter_pair_cons_eq _ _ _ _ _ _ _ _ _ hp]
      simp only [List.map_cons, List.length_cons]
      rw [hp, ih]
      simp [List.range'_succ]
    · rw [filter_pair_cons_ne _ _ _ _ _ _ _ _ _ hp]
      rw [ih]
      simp [Ne.symm hp]

/-! ## The user table keeps its ids through every later pass -/

/-- Setting a row that keeps its `user_id` leaves the id column unchanged. -/
theorem map_user_id_set_preserve (us : List User) (i : Nat) (v : User)
    (hv : v.user_id = (us.getD i dfltUser).user_id) :
    (us.set i v).map (fun u => u.user_id) = us.map (fun u => u.user_id) := by
  rw [List.map_set, hv]
  have h := getD_map (fun u => u.user_id) us i dfltUser
  rw [show dfltUser.user_id = (0 : Nat) from rfl] at h
  rw [← h]
  exact set_getD_self _ _ _

/-- The email pass changes no `user_id`. -/
theorem injectEmail_map_user_id (g : Gen) (us : List User) (s : St) :
    (injectEmail g us s).1.map (fun u => u.user_id) = us.map (fun u => u.user_id) := by
  induction us generalizing s with
  | nil => simp [injectEmail]
  | cons u rest ih =>
    simp only [injectEmail]
    split
    · simp [ih]
    · simp [ih]

/-- Two successive row writes that both keep their `user_id` leave the id
column unchanged. -/
theorem map_user_id_set_set (us : List User) (i k : Nat) (v1 v2 : User)
    (h1 : v1.user_id = (us.getD i dfltUser).user_id)
    (h2 : v2.user_id = ((us.set i v1).getD k dfltUser).user_id) :
    ((us.set i v1).set k v2).map (fun u => u.user_id) = us.map (fun u => u.user_id) :=
  (map_user_id_set_preserve _ _ _ h2).trans (map_user_id_set_preserve _ _ _ h1)

/-- One duplication step changes no `user_id`. -/
theorem dupOnce_map_user_id (g : Gen) (us : List User) (s : St) :
    (dupOnce g us s).1.map (fun u => u.user_id) = us.map (fun u => u.user_id) := by
  simp only [dupOnce]
  split
  · exact map_user_id_set_set _ _ _ _ _ rfl rfl
  · exact map_user_id_set_preserve _ _ _ rfl

/-- The whole duplication loop changes no `user_id`. -/
theorem dupLoop_map_user_id (g : Gen) (n : Nat) (us : List User) (s : St) :
    (dupLoop g n us s).1.map (fun u => u.user_id) = us.map (fun u => u.user_id) := by
  induction n generalizing us s with
  | zero => rfl
  | succ n ih => rw [dupLoop, ih, dupOnce_map_user_id]

/-- The aggregation merge changes no `user_id`. -/
theorem mergeAggregate_map_user_id (us : List User) (counts : List (Nat × Nat)) :
    (mergeAggregate us counts).map (fun u => u.user_id) = us.map (fun u => u.user_id) := by
  simp [mergeAggregate, List.map_map, Function.comp]

/-- The aggregation merge keeps exactly one row per input row. -/
theorem mergeAggregate_length (us : List User) (counts : List (Nat × Nat)) :
    (mergeAggregate us counts).length = us.length := by
  simp [mergeAggregate]

/-! ## The groupby/merge aggregation computes exact counts -/

/-- `find?` with an equality test finds the element itself. -/
theorem find?_beq_self {a : Nat} {l : List Nat} (h : a ∈ l) :
    l.find? (fun x => x == a) = some a := by
  induction l with
  | nil => simp at h
  | cons b t ih =>
    by_cases hb : b = a
    · subst hb
      simp [List.find?_cons_of_pos]
    · have hf : ((fun x : Nat => x == a) b) = false := by simpa using hb
      rw [List.find?_cons_of_neg _ (by simp [hf])]
      exact ih (by
        rcases List.mem_cons.mp h with h1 | h1
        · exact absurd h1.symm hb
        · exact h1)

/-- The left-merge lookup into the grouped play counts returns, for every
user id, exactly the number of plays with that id (0 when the id never
occurs, via `fillna(0)`). -/
theorem lookupCount_user_listen_counts (plays : List Play) (uid : Nat) :
    (lookupCount (user_listen_counts plays) uid).getD 0
      = (plays.map (fun p => p.user_id)).count uid := by
  unfold lookupCount user_listen_counts
  rw [List.find?_map]
  by_cases h : uid ∈ (plays.map (fun p => p.user_id)).dedup
  · have hfind :
        ((plays.map (fun p => p.user_id)).dedup).find?
          ((fun c => c.1 == uid) ∘ fun u => (u, (plays.map (fun p => p.user_id)).count u))
        = some uid := by
      have : ((fun c : Nat × Nat => c.1 == uid) ∘
          fun u => (u, (plays.map (fun p => p.user_id)).count u)) = fun x => x == uid := rfl
      rw [this]
      exact find?_beq_self h
    rw [hfind]
    rfl
  · have hfind :
        ((plays.map (fun p => p.user_id)).dedup).find?
          ((fun c => c.1 == uid) ∘ fun u => (u, (plays.map (fun p => p.user_id)).count u))
        = none := by
      rw [List.find?_eq_none]
      intro x hx
      simp only [Function.comp, beq_iff_eq]
      intro hxeq
      exact h (hxeq ▸ hx)
    rw [hfind]
    have hnot : uid ∉ plays.map (fun p => p.user_id) := fun hm => h (List.mem_dedup.mpr hm)
    simp [List.count_eq_zero_of_not_mem hnot]

/-- Counting a user id in the id column is counting that user's plays. -/
theorem count_map_user_id (plays : List Play) (uid : Nat) :
    (plays.map (fun p => p.user_id)).count uid
      = plays.countP (fun p => p.user_id == uid) := by
  simp [List.count, List.countP_map]
  rfl

/-- The grouped counts have pairwise distinct user ids: the merge matches at
most one count row per user row. -/
theorem user_listen_counts_keys_nodup (plays : List Play) :
    ((user_listen_counts plays).map (fun c => c.1)).Nodup := by
  unfold user_listen_counts
  rw [List.map_map]
  have : ((fun c : Nat × Nat => c.1) ∘
      fun u => (u, (plays.map (fun p => p.user_id)).count u)) = id := rfl
  rw [this, List.map_id]
  exact List.nodup_dedup _

/-! ## Summing the per-user counts gives the total number of plays -/

/-- Sum of a pointwise sum of two maps. -/
theorem sum_map_add {α : Type} (l : List α) (f h : α → Nat) :
    (l.map (fun x => f x + h x)).sum = (l.map f).sum + (l.map h).sum := by
  induction l with
  | nil => rfl
  | cons a t ih =>
    simp only [List.map_cons, List.sum_cons, ih]
    omega

/-- An indicator for a value absent from the list sums to 0. -/
theorem sum_ite_zero (x : Nat) (t : List Nat) (h : x ∉ t) :
    (t.map (fun u => if x == u then 1 else 0)).sum = 0 := by
  induction t with
  | nil => rfl
  | cons b t ih =>
    have hxb : (x == b) = false := by
      simp only [beq_eq_false_iff_ne, ne_eq]
      exact fun hh => h (hh ▸ List.mem_cons_self b t)
    simp only [List.map_cons, List.sum_cons, hxb, Bool.false_eq_true, if_neg, ite_false]
    simpa using ih (fun hm => h (List.mem_cons_of_mem b hm))

/-- An indicator for a value occurring in a duplicate-free list sums to 1. -/
theorem sum_ite_one (x : Nat) (ids : List Nat) (hnd : ids.Nodup) (hx : x ∈ ids) :
    (ids.map (fun u => if x == u then 1 else 0)).sum = 1 := by
  induction ids with
  | nil => simp at hx
  | cons b t ih =>
    rcases List.mem_cons.mp hx with rfl | hxt
    · have hnx : x ∉ t := (List.nodup_cons.mp hnd).1
      simp only [List.map_cons, List.sum_cons, BEq.refl, if_pos]
      simpa using sum_ite_zero x t hnx
    · have hbx : (x == b) = false := by
        simp only [beq_eq_false_iff_ne, ne_eq]
        exact fun hh => (List.nodup_cons.mp hnd).1 (hh ▸ hxt)
      simp only [List.map_cons, List.sum_cons, hbx, Bool.false_eq_true, if_neg, ite_false]
      simpa using ih (List.nodup_cons.mp hnd).2 hxt

/-- If the id list is duplicate-free and covers every value of `L`, the
per-id occurrence counts sum to the length of `L`: each play is attributed
to exactly one user. -/
theorem sum_counts_eq_length (ids : List Nat) (hnd : ids.Nodup) (L : List Nat)
    (hcov : ∀ x ∈ L, x ∈ ids) :
    (ids.map (fun u => L.count u)).sum = L.length := by
  induction L with
  | nil => simp
  | cons x t ih =>
    have hcount : (fun u => (x :: t).count u) = fun u => t.count u + if x == u then 1 else 0 := by
      funext u
      rw [List.count_cons]
    rw [hcount, sum_map_add, ih (fun y hy => hcov y (List.mem_cons_of_mem x hy)),
      sum_ite_one x ids hnd (hcov x (List.mem_cons_self x t))]
    simp

/-- Casting a list of natural counts to integers commutes with summation. -/
theorem sum_map_int_ofNat {α : Type} (l : List α) (f : α → Nat) :
    (l.map (fun x => Int.ofNat (f x))).sum = Int.ofNat ((l.map f).sum) := by
  induction l with
  | nil => rfl
  | cons a t ih =>
    simp only [List.map_cons, List.sum_cons, ih]
    exact (Int.ofNat_add _ _).symm

/-! ## Pipeline-level facts -/

/-- Artists in the final tables: ids 1..numArtists (no later stage touches
them). -/
theorem runPipeline_artist_ids (cfg : Config) (g : Gen) :
    (runPipeline cfg g).artists.map (fun a => a.artist_id)
      = List.range' 1 cfg.numArtists :=
  genArtists_ids g cfg.numArtists 1 st0

/-- Albums in the final tables: ids 1..numAlbums. -/
theorem runPipeline_album_ids (cfg : Config) (g : Gen) :
    (runPipeline cfg g).albums.map (fun a => a.album_id)
      = List.range' 1 cfg.numAlbums :=
  genAlbums_ids g _ cfg.numAlbums 1 _

/-- Songs in the final tables: ids 1..numSongs. -/
theorem runPipeline_song_ids (cfg : Config) (g : Gen) :
    (runPipeline cfg g).songs.map (fun x => x.song_id)
      = List.range' 1 cfg.numSongs :=
  genSongs_ids g _ cfg.numSongs 1 _

/-- The email pass keeps the row count. -/
theorem injectEmail_length (g : Gen) (us : List User) (s : St) :
    (injectEmail g us s).1.length = us.length := by
  have h := congrArg List.length (injectEmail_map_user_id g us s)
  simpa using h

/-- The duplication loop keeps the row count. -/
theorem dupLoop_length (g : Gen) (n : Nat) (us : List User) (s : St) :
    (dupLoop g n us s).1.length = us.length := by
  have h := congrArg List.length (dupLoop_map_user_id g n us s)
  simpa using h

/-- User ids after the quality stage: still exactly 1..numUsers. -/
theorem qualDB_user_ids (cfg : Config) (g : Gen) :
    (qualDB cfg g).1.users.map (fun u => u.user_id) = List.range' 1 cfg.numUsers := by
  have h1 : (qualDB cfg g).1.users
      = (dupLoop g (dupCount (injectEmail g (genStage cfg g).1.users (genStage cfg g).2).1.length)
          (injectEmail g (genStage cfg g).1.users (genStage cfg g).2).1
          (injectEmail g (genStage cfg g).1.users (genStage cfg g).2).2).1 := rfl
  rw [h1, dupLoop_map_user_id, injectEmail_map_user_id]
  exact genUsers_ids g cfg.numUsers 1 _

/-- Song ids visible to the plays stage: exactly 1..numSongs. -/
theorem qualDB_song_ids (cfg : Config) (g : Gen) :
    (qualDB cfg g).1.songs.map (fun x => x.song_id) = List.range' 1 cfg.numSongs :=
  genSongs_ids g _ cfg.numSongs 1 _

/-- User ids in the final tables: still exactly 1..numUsers. -/
theorem runPipeline_user_ids (cfg : Config) (g : Gen) :
    (runPipeline cfg g).users.map (fun u => u.user_id) = List.range' 1 cfg.numUsers := by
  have h0 : (runPipeline cfg g).users
      = mergeAggregate (qualDB cfg g).1.users
          (user_listen_counts (playsDB cfg g).1.plays) := rfl
  rw [h0, mergeAggregate_map_user_id]
  exact qualDB_user_ids cfg g

/-- The final user table still has one row per generated user. -/
theorem runPipeline_users_length (cfg : Config) (g : Gen) :
    (runPipeline cfg g).users.length = cfg.numUsers := by
  have h := congrArg List.length (runPipeline_user_ids cfg g)
  simpa using h

/-- The final plays table: the claimed exact record count. -/
theorem runPipeline_plays_length (cfg : Config) (g : Gen) :
    (runPipeline cfg g).plays.length = cfg.numPlays :=
  genPlaysAux_length g _ _ cfg.numPlays (fun _ => 0) _

/-- Every play in the final tables references user and song ids from the
dense generated ranges, provided both counts are positive. -/
theorem runPipeline_play_refs (cfg : Config) (g : Gen) (hu : 0 < cfg.numUsers)
    (hs : 0 < cfg.numSongs) :
    ∀ p ∈ (runPipeline cfg g).plays,
      p.user_id ∈ List.range' 1 cfg.numUsers ∧ p.song_id ∈ List.range' 1 cfg.numSongs := by
  intro p hp
  have hlu : 0 < ((qualDB cfg g).1.users.map (fun u => u.user_id)).length := by
    rw [qualDB_user_ids]
    simpa using hu
  have hls : 0 < ((qualDB cfg g).1.songs.map (fun x => x.song_id)).length := by
    rw [qualDB_song_ids]
    simpa using hs
  have hplays : (runPipeline cfg g).plays
      = (genPlaysAux g ((qualDB cfg g).1.users.map (fun u => u.user_id))
          ((qualDB cfg g).1.songs.map (fun x => x.song_id)) cfg.numPlays (fun y => 0)
          (qualDB cfg g).2).1 := rfl
  rw [hplays] at hp
  have href := genPlaysAux_refs g ((qualDB cfg g).1.users.map (fun u => u.user_id))
    ((qualDB cfg g).1.songs.map (fun x => x.song_id)) cfg.numPlays (fun y => 0)
    (qualDB cfg g).2 hlu hls p hp
  rw [qualDB_user_ids, qualDB_song_ids] at href
  exact href

/-! ## Aggregate values on the user table -/

/-- After the merge, every user row carries the exact play count of its id. -/
theorem mergeAggregate_all_counts (us : List User) (plays : List Play) :
    ((mergeAggregate us (user_listen_counts plays)).all (fun u =>
      u.total_listens == Int.ofNat (plays.countP (fun p => p.user_id == u.user_id)))) = true := by
  rw [List.all_eq_true]
  intro x hx
  simp only [mergeAggregate, List.mem_map] at hx
  obtain ⟨u, hu, rfl⟩ := hx
  have hcnt : (lookupCount (user_listen_counts plays) u.user_id).getD 0
      = plays.countP (fun p => p.user_id == u.user_id) := by
    rw [lookupCount_user_listen_counts, count_map_user_id]
  simp [hcnt]

/-- The merged `total_listens` column, as a function of the id column. -/
theorem mergeAggregate_map_total (us : List User) (counts : List (Nat × Nat)) :
    (mergeAggregate us counts).map (fun u => u.total_listens)
      = (us.map (fun u => u.user_id)).map
          (fun uid => Int.ofNat ((lookupCount counts uid).getD 0)) := by
  simp only [mergeAggregate, List.map_map]
  rfl

/-- Every merged `total_listens` value is a non-negative integer
(`fillna(0).astype(int)` of a group size). -/
theorem mergeAggregate_nonneg (us : List User) (counts : List (Nat × Nat)) :
    ((mergeAggregate us counts).all (fun u => decide (0 ≤ u.total_listens))) = true := by
  rw [List.all_eq_true]
  intro x hx
  simp only [mergeAggregate, List.mem_map] at hx
  obtain ⟨u, hu, rfl⟩ := hx
  simp

/-! ## The claims -/

/-- C1: after the aggregation step, every generated user row (with the full
id range 1..NUM_USERS present) has `total_listens` equal to the exact number
of Play records carrying its `user_id`, including 0 for users with no plays. -/
theorem claim_C1 (g : Gen) :
    ((finalDB g).users.all (fun u =>
        u.total_listens
          == Int.ofNat ((finalDB g).plays.countP (fun p => p.user_id == u.user_id)))) = true
    ∧ (finalDB g).users.map (fun u => u.user_id) = List.range' 1 NUM_USERS := by
  constructor
  · have h0 : (finalDB g).users
        = mergeAggregate (qualDB defaultConfig g).1.users
            (user_listen_counts (finalDB g).plays) := rfl
    rw [h0]
    exact mergeAggregate_all_counts _ _
  · exact runPipeline_user_ids defaultConfig g

/-- C2: for every (user_id, song_id) pair, the session numbers of that pair's
plays, in generation order, are exactly 1, 2, ..., k with no gaps and no
repeats, where k is the number of plays generated for the pair. -/
theorem claim_C2 (g : Gen) (uid sid : Nat) :
    ((finalDB g).plays.filter
        (fun p => decide ((p.user_id, p.song_id) = (uid, sid)))).map (fun p => p.session_no)
    = List.range' 1
        ((finalDB g).plays.filter
          (fun p => decide ((p.user_id, p.song_id) = (uid, sid)))).length := by
  have hplays : (finalDB g).plays
      = (genPlaysAux g ((qualDB defaultConfig g).1.users.map (fun u => u.user_id))
          ((qualDB defaultConfig g).1.songs.map (fun x => x.song_id)) NUM_PLAYS (fun y => 0)
          (qualDB defaultConfig g).2).1 := rfl
  rw [hplays]
  exact genPlaysAux_sessions g _ _ uid sid NUM_PLAYS (fun y => 0) _

/-- C6: the pipeline is a pure function of the seeded streams and the
entity-count configuration: two runs with the same streams and the same
configuration produce identical tables (entities, injected dirt, and
aggregates alike). -/
theorem claim_C6 (c1 c2 : Config) (g1 g2 : Gen) (hc : c1 = c2) (hg : g1 = g2) :
    runPipeline c1 g1 = runPipeline c2 g2 := by
  rw [hc, hg]

/-- Witness for C6 at the script's configuration and a concrete oracle. -/
theorem claim_C6_witness :
    defaultConfig = defaultConfig ∧ gZero = gZero ∧
      runPipeline defaultConfig gZero = runPipeline defaultConfig gZero :=
  ⟨rfl, rfl, claim_C6 defaultConfig defaultConfig gZero gZero rfl rfl⟩

/-- C8: each entity generator yields exactly its target count of rows with
contiguous surrogate keys 1..N (Artists 1..120, Albums 1..400, Songs 1..1200,
Users 1..1100 at the script's configuration), and the plays loop yields
exactly P = 3500 records. -/
theorem claim_C8 :
    (∀ (cfg : Config) (g : Gen),
      (runPipeline cfg g).artists.map (fun a => a.artist_id) = List.range' 1 cfg.numArtists
      ∧ (runPipeline cfg g).albums.map (fun a => a.album_id) = List.range' 1 cfg.numAlbums
      ∧ (runPipeline cfg g).songs.map (fun x => x.song_id) = List.range' 1 cfg.numSongs
      ∧ (runPipeline cfg g).users.map (fun u => u.user_id) = List.range' 1 cfg.numUsers
      ∧ (runPipeline cfg g).plays.length = cfg.numPlays)
    ∧ (∀ g : Gen,
      (finalDB g).artists.map (fun a => a.artist_id) = List.range' 1 120
      ∧ (finalDB g).albums.map (fun a => a.album_id) = List.range' 1 400
      ∧ (finalDB g).songs.map (fun x => x.song_id) = List.range' 1 1200
      ∧ (finalDB g).users.map (fun u => u.user_id) = List.range' 1 1100
      ∧ (finalDB g).plays.length = 3500) :=
  ⟨fun cfg g => ⟨runPipeline_artist_ids cfg g, runPipeline_album_ids cfg g,
    runPipeline_song_ids cfg g, runPipeline_user_ids cfg g, runPipeline_plays_length cfg g⟩,
   fun g => ⟨runPipeline_artist_ids defaultConfig g, runPipeline_album_ids defaultConfig g,
    runPipeline_song_ids defaultConfig g, runPipeline_user_ids defaultConfig g,
    runPipeline_plays_length defaultConfig g⟩⟩

/-- C10: after aggregation every `total_listens` is a non-negative integer
(so the Users CHECK constraint cannot fire on generated data), the grouped
counts carry pairwise distinct user ids, and the merge keeps exactly one row
per user id. -/
theorem claim_C10 (g : Gen) :
    ((finalDB g).users.all (fun u => decide (0 ≤ u.total_listens))) = true
    ∧ ((user_listen_counts (finalDB g).plays).map (fun c => c.1)).Nodup
    ∧ (finalDB g).users.length = NUM_USERS
    ∧ ((finalDB g).users.map (fun u => u.user_id)).Nodup := by
  refine ⟨?_, user_listen_counts_keys_nodup _, runPipeline_users_length defaultConfig g, ?_⟩
  · have h0 : (finalDB g).users
        = mergeAggregate (qualDB defaultConfig g).1.users
            (user_listen_counts (finalDB g).plays) := rfl
    rw [h0]
    exact mergeAggregate_nonneg _ _
  · have hids : (finalDB g).users.map (fun u => u.user_id) = List.range' 1 NUM_USERS :=
      runPipeline_user_ids defaultConfig g
    rw [hids]
    exact List.nodup_range' 1 NUM_USERS

/-- The configured user count is positive. -/
theorem numUsers_pos : 0 < defaultConfig.numUsers := by
  norm_num [defaultConfig, NUM_USERS]

/-- The configured song count is positive. -/
theorem numSongs_pos : 0 < defaultConfig.numSongs := by
  norm_num [defaultConfig, NUM_SONGS]

/-- Albums generated in the generation stage reference generated artist ids. -/
theorem genStage_album_refs (cfg : Config) (g : Gen) (h : 0 < cfg.numArtists) :
    ∀ a ∈ (genStage cfg g).1.albums,
      a.artist_id ∈ (genStage cfg g).1.artists.map (fun x => x.artist_id) := by
  intro a ha
  have hids : (genStage cfg g).1.artists.map (fun x => x.artist_id)
      = List.range' 1 cfg.numArtists := genArtists_ids g cfg.numArtists 1 st0
  have hlen : 0 < ((genStage cfg g).1.artists.map (fun x => x.artist_id)).length := by
    rw [hids, List.length_range']
    exact h
  have halb : (genStage cfg g).1.albums
      = (genAlbums g ((genStage cfg g).1.artists.map (fun x => x.artist_id)) cfg.numAlbums 1
          (genArtists g cfg.numArtists 1 st0).2).1 := rfl
  rw [halb] at ha
  exact genAlbums_artist_mem g ((genStage cfg g).1.artists.map (fun x => x.artist_id))
    cfg.numAlbums 1 (genArtists g cfg.numArtists 1 st0).2 hlen a ha

/-- Songs generated in the generation stage reference generated album ids. -/
theorem genStage_song_refs (cfg : Config) (g : Gen) (h : 0 < cfg.numAlbums) :
    ∀ x ∈ (genStage cfg g).1.songs,
      x.album_id ∈ (genStage cfg g).1.albums.map (fun a => a.album_id) := by
  intro x hx
  have hids : (genStage cfg g).1.albums.map (fun a => a.album_id)
      = List.range' 1 cfg.numAlbums := genAlbums_ids g _ cfg.numAlbums 1 _
  have hlen : 0 < (genStage cfg g).1.albums.length := by
    have hh := congrArg List.length hids
    rw [List.length_map, List.length_range'] at hh
    rw [hh]
    exact h
  have hsg : (genStage cfg g).1.songs
      = (genSongs g (genStage cfg g).1.albums cfg.numSongs 1
          (genAlbums g ((genArtists g cfg.numArtists 1 st0).1.map (fun a => a.artist_id))
            cfg.numAlbums 1 (genArtists g cfg.numArtists 1 st0).2).2).1 := rfl
  rw [hsg] at hx
  exact genSongs_album_mem g (genStage cfg g).1.albums cfg.numSongs 1
    (genAlbums g ((genArtists g cfg.numArtists 1 st0).1.map (fun a => a.artist_id))
      cfg.numAlbums 1 (genArtists g cfg.numArtists 1 st0).2).2 hlen x hx

/-- The artist table is unchanged after the generation stage. -/
theorem finalDB_artists_eq (g : Gen) :
    (finalDB g).artists = (genStage defaultConfig g).1.artists := rfl

/-- The album table is unchanged after the generation stage. -/
theorem finalDB_albums_eq (g : Gen) :
    (finalDB g).albums = (genStage defaultConfig g).1.albums := rfl

/-- The song table is unchanged after the generation stage. -/
theorem finalDB_songs_eq (g : Gen) :
    (finalDB g).songs = (genStage defaultConfig g).1.songs := rfl

/-- C3: referential integrity of every generated foreign key: each album
references a generated artist id, each song a generated album id, and each
play a generated user id and song id. -/
theorem claim_C3 (g : Gen) :
    ((finalDB g).albums.all (fun a =>
        ((finalDB g).artists.map (fun x => x.artist_id)).contains a.artist_id)) = true
    ∧ ((finalDB g).songs.all (fun x =>
        ((finalDB g).albums.map (fun a => a.album_id)).contains x.album_id)) = true
    ∧ ((finalDB g).plays.all (fun p =>
        (((finalDB g).users.map (fun u => u.user_id)).contains p.user_id
          && ((finalDB g).songs.map (fun x => x.song_id)).contains p.song_id))) = true := by
  have hsngids : (finalDB g).songs.map (fun x => x.song_id) = List.range' 1 NUM_SONGS :=
    runPipeline_song_ids defaultConfig g
  have huserids : (finalDB g).users.map (fun u => u.user_id) = List.range' 1 NUM_USERS :=
    runPipeline_user_ids defaultConfig g
  refine ⟨?_, ?_, ?_⟩
  · rw [List.all_eq_true]
    intro a ha
    rw [finalDB_albums_eq] at ha
    rw [finalDB_artists_eq]
    exact List.elem_eq_true_of_mem
      (genStage_album_refs defaultConfig g (by norm_num [defaultConfig, NUM_ARTISTS]) a ha)
  · rw [List.all_eq_true]
    intro x hx
    rw [finalDB_songs_eq] at hx
    rw [finalDB_albums_eq]
    exact List.elem_eq_true_of_mem
      (genStage_song_refs defaultConfig g (by norm_num [defaultConfig, NUM_ALBUMS]) x hx)
  · rw [List.all_eq_true]
    intro p hp
    have href := runPipeline_play_refs defaultConfig g numUsers_pos numSongs_pos p hp
    have hu : p.user_id ∈ (finalDB g).users.map (fun u => u.user_id) := by
      rw [huserids]
      exact href.1
    have hs : p.song_id ∈ (finalDB g).songs.map (fun x => x.song_id) := by
      rw [hsngids]
      exact href.2
    rw [Bool.and_eq_true]
    exact ⟨List.elem_eq_true_of_mem hu, List.elem_eq_true_of_mem hs⟩

/-- C7: at the script's configuration the per-user aggregates add up to the
full fact table: the sum of `total_listens` over all user rows equals the
number of generated plays, 3500, since every play is attributed to exactly
one user. -/
theorem claim_C7 (g : Gen) :
    ((finalDB g).users.map (fun u => u.total_listens)).sum = 3500
    ∧ (finalDB g).plays.length = 3500 := by
  have hplen : (finalDB g).plays.length = 3500 := runPipeline_plays_length defaultConfig g
  refine ⟨?_, hplen⟩
  have h0 : (finalDB g).users
      = mergeAggregate (qualDB defaultConfig g).1.users
          (user_listen_counts (finalDB g).plays) := rfl
  rw [h0, mergeAggregate_map_total, qualDB_user_ids defaultConfig g]
  have hfun : (fun uid =>
        Int.ofNat ((lookupCount (user_listen_counts (finalDB g).plays) uid).getD 0))
      = fun uid => Int.ofNat (((finalDB g).plays.map (fun p => p.user_id)).count uid) :=
    funext fun uid => by rw [lookupCount_user_listen_counts]
  rw [hfun, sum_map_int_ofNat]
  have hsum : ((List.range' 1 defaultConfig.numUsers).map
        (fun uid => ((finalDB g).plays.map (fun p => p.user_id)).count uid)).sum
      = ((finalDB g).plays.map (fun p => p.user_id)).length := by
    apply sum_counts_eq_length
    · exact List.nodup_range' 1 defaultConfig.numUsers
    · intro x hx
      rw [List.mem_map] at hx
      obtain ⟨p, hp, rfl⟩ := hx
      exact (runPipeline_play_refs defaultConfig g numUsers_pos numSongs_pos p hp).1
  rw [hsum, List.length_map, hplen]
  rfl

/-- C4 counterexample: requesting 500 users does not fail — the users loop
has no floor check and happily produces 500 complete user records. -/
theorem claim_C4_counterexample :
    (genUsers gZero 500 1 st0).1.length = 500 :=
  genUsers_length gZero 500 1 st0

/-- C4, amended: the user count is the hard-coded constant `NUM_USERS = 1100`,
which satisfies the documented floor of 1000; no runtime floor check exists,
and user generation with any requested count N (500 included) runs to
completion and produces exactly N records. -/
theorem claim_C4 :
    NUM_USERS = 1100 ∧ 1000 ≤ NUM_USERS ∧
      ∀ (g : Gen) (n uid : Nat) (s : St), (genUsers g n uid s).1.length = n :=
  ⟨rfl, by norm_num [NUM_USERS], fun g n uid s => genUsers_length g n uid s⟩

/-- C5 counterexample: the email value does not depend on the user's name —
two rows that differ only in the name receive the same email under the same
streams, so the email is not derived from the name. -/
theorem claim_C5_counterexample :
    ("Alice" : String) ≠ "Bob"
    ∧ (injectEmail gZero [mkTestUser "Alice"] st0).1.map (fun u => u.email)
        = (injectEmail gZero [mkTestUser "Bob"] st0).1.map (fun u => u.email)
    ∧ (injectEmail gZero [mkTestUser "Alice"] st0).1.map (fun u => u.email)
        = [some "user100@example.org"] := by
  refine ⟨by decide, ?_, ?_⟩
  · simp [injectEmail, randomFloat, drawRand, drawFake, gZero, st0, mkTestUser]
    norm_num
  · simp [injectEmail, randomFloat, drawRand, drawFake, gZero, st0, mkTestUser]
    norm_num

/-- C5, amended: for each user row, when the uniform draw is at most 0.05
(the configured 5% missingness) the email is set to absent, and otherwise it
is a synthetic address drawn from the seeded Faker stream; the produced email
column is a function of the streams and the row count only, independent of
the user names. -/
theorem claim_C5 (g : Gen) (us : List User) (s : St) :
    (injectEmail g us s).1.map (fun u => u.email) = (emailsFrom g us.length s).1 := by
  induction us generalizing s with
  | nil => rfl
  | cons u rest ih =>
    simp only [injectEmail, List.length_cons, emailsFrom]
    by_cases h : (randomFloat g s).1 > 1/20
    · rw [if_pos h, if_pos h]
      simp [ih]
    · rw [if_neg h, if_neg h]
      simp [ih]

/-- C9: only the user table is mutated after its creation — the quality stage
rewrites only `users`, the plays stage only `plays`, and the aggregation
stage only `users`; the pipeline is exactly the composition generation →
quality injection → plays → aggregation, and when the quality stage runs the
full user table (ids 1..numUsers) already exists. -/
theorem claim_C9 :
    (∀ (g : Gen) (d : DB) (s : St),
        (qualityStage g d s).1.artists = d.artists
        ∧ (qualityStage g d s).1.albums = d.albums
        ∧ (qualityStage g d s).1.songs = d.songs
        ∧ (qualityStage g d s).1.plays = d.plays)
    ∧ (∀ (cfg : Config) (g : Gen) (d : DB) (s : St),
        (playsStage cfg g d s).1.artists = d.artists
        ∧ (playsStage cfg g d s).1.albums = d.albums
        ∧ (playsStage cfg g d s).1.songs = d.songs
        ∧ (playsStage cfg g d s).1.users = d.users)
    ∧ (∀ d : DB,
        (aggStage d).artists = d.artists ∧ (aggStage d).albums = d.albums
        ∧ (aggStage d).songs = d.songs ∧ (aggStage d).plays = d.plays)
    ∧ (∀ (cfg : Config) (g : Gen),
        runPipeline cfg g
          = aggStage (playsStage cfg g
              (qualityStage g (genStage cfg g).1 (genStage cfg g).2).1
              (qualityStage g (genStage cfg g).1 (genStage cfg g).2).2).1)
    ∧ (∀ (cfg : Config) (g : Gen),
        (genStage cfg g).1.users.map (fun u => u.user_id) = List.range' 1 cfg.numUsers) := by
  refine ⟨fun g d s => ⟨rfl, rfl, rfl, rfl⟩, fun cfg g d s => ⟨rfl, rfl, rfl, rfl⟩,
    fun d => ⟨rfl, rfl, rfl, rfl⟩, fun cfg g => rfl, fun cfg g => ?_⟩
  exact genUsers_ids g cfg.numUsers 1 _
